import Mathlib

/-!
Verification development for `gwdetchar/omega/html.py`, the Omega-scan HTML
report writer.  The Python module is shallowly embedded below: pure
page-construction code becomes Lean functions on a `Node` tree, the
process-wide static-asset registry becomes explicit state passing
(`AssetState`), file-system writes become lists of (path, content) pairs
returned by the functions, and fallible code (dictionary lookups, the
external syntax-highlighter subprocess, the crash on an empty plot list)
returns `Option`/`Except`.
-/

namespace GwdetcharOmegaHtml

/-! ### String and path utilities (POSIX `os.path` behaviour used by the module) -/

/-- `s.startswith(pre)` in Python, on POSIX path strings. -/
def startswith (s pre : String) : Bool :=
  pre.data.isPrefixOf s.data

/-- `s.endswith(suf)` in Python (used by the stylesheet/script
de-duplication loop in `init_page`). -/
def endswith (s suf : String) : Bool :=
  suf.data.isSuffixOf s.data

/-- Whether `sub` occurs as a contiguous sublist of `l`. -/
def listIsInfixOf (sub : List Char) : List Char → Bool
  | [] => sub.isEmpty
  | c :: cs => sub.isPrefixOf (c :: cs) || listIsInfixOf sub cs

/-- `sub in s` in Python: substring containment. -/
def strContains (s sub : String) : Bool :=
  listIsInfixOf sub.data s.data

/-- `os.path.basename` on POSIX: everything after the last `/`. -/
def basename (p : String) : String :=
  String.mk ((p.data.reverse.takeWhile (fun c => !(c == '/'))).reverse)

/-- String length via the underlying character list (used for path
distinctness arguments). -/
def strLen (s : String) : Nat :=
  s.data.length

/-- `os.path.curdir` on POSIX. -/
def osCurdir : String := "."

/-- `os.path.pardir` on POSIX. -/
def osPardir : String := ".."

/-- `os.path.join(a, b)` on POSIX for a single right argument: an absolute
`b` replaces `a`; otherwise a `/` separator is inserted unless `a` is empty
or already ends with `/`. -/
def pathJoin (a b : String) : String :=
  if startswith b "/" = true then b
  else if a = "" ∨ endswith a "/" = true then a ++ b
  else a ++ "/" ++ b

/-- The number of separator characters `pathJoin a b` inserts between `a`
and a relative `b` (0 or 1, depending only on `a`). -/
def joinSep (a : String) : Nat :=
  if a = "" ∨ endswith a "/" = true then 0 else 1

theorem strData_append (a b : String) : (a ++ b).data = a.data ++ b.data := by
  cases a; cases b; rfl

theorem strLen_append (a b : String) : strLen (a ++ b) = strLen a + strLen b := by
  simp [strLen, strData_append]

theorem pathJoin_strLen (a b : String) (hb : startswith b "/" = false) :
    strLen (pathJoin a b) = strLen a + joinSep a + strLen b := by
  unfold pathJoin joinSep
  rw [hb]
  simp only [Bool.false_eq_true, if_false]
  split
  · simp [strLen_append]
  · simp [strLen_append]
    have h1 : strLen "/" = 1 := rfl
    omega

theorem endswith_append_about (x : String) : endswith (x ++ "about") "/" = false := by
  simp only [endswith, strData_append, List.isSuffixOf, List.reverse_append]
  rfl

theorem append_about_ne_empty (x : String) : x ++ "about" ≠ "" := by
  intro h
  have := congrArg strLen h
  rw [strLen_append] at this
  simp [strLen] at this

theorem joinSep_pathJoin_about (a : String) : joinSep (pathJoin a "about") = 1 := by
  unfold pathJoin
  have hb : startswith "about" "/" = false := rfl
  rw [hb]
  simp only [Bool.false_eq_true, if_false]
  split
  · unfold joinSep
    rw [if_neg]
    push_neg
    exact ⟨append_about_ne_empty a, by simp [endswith_append_about]⟩
  · unfold joinSep
    rw [if_neg]
    push_neg
    exact ⟨append_about_ne_empty (a ++ "/"), by simp [endswith_append_about (a ++ "/")]⟩

theorem strLen_pathJoin_about (a : String) :
    strLen (pathJoin a "about") = strLen a + joinSep a + 5 := by
  have := pathJoin_strLen a "about" rfl
  simpa using this

/-! ### The markup model

`glue.markup.page` is the page-builder primitive the module drives.  We
model the emitted element stream structurally: an open tag with its
attributes, a closing tag, a complete element with text content (covering
one-liner calls such as `page.p("text")`, one-tags such as `<link>`/`<img>`,
and `page.script('', src=f)`), or a raw string added verbatim. -/

inductive Node where
  | el (tag : String) (attrs : List (String × String)) : Node
  | close (tag : String) : Node
  | elc (tag : String) (attrs : List (String × String)) (content : String) : Node
  | raw (s : String) : Node
deriving DecidableEq

/-- A `markup.page` as used here: the `header` item list (holding the
doctype), the accumulated content stream, and the `_full` flag that
`init_page` sets and `close_page` tests. -/
structure Page where
  headerItems : List Node
  content : List Node
  full : Bool
deriving DecidableEq

/-- Serialising a page (`page()`) emits its header items then its content. -/
def Page.render (p : Page) : List Node :=
  p.headerItems ++ p.content

/-! ### `FancyPlot` -/

/-- An image reference plus caption (class `FancyPlot`). -/
structure FancyPlot where
  img : String
  caption : String
deriving DecidableEq

/-- The `img` argument of `FancyPlot.__init__`: either a path string or
another `FancyPlot`. -/
inductive FancyPlotArg where
  | path (s : String) : FancyPlotArg
  | plot (p : FancyPlot) : FancyPlotArg
deriving DecidableEq

/-- `str(img)`: `FancyPlot.__str__` returns `self.img`. -/
def pyStr : FancyPlotArg → String
  | .path s => s
  | .plot p => p.img

/-- Python truthiness of an optional string: `None` and `""` are falsy. -/
def optTruthy : Option String → Bool
  | none => false
  | some s => !(s == "")

/-- `FancyPlot.__init__(img, caption=None)`:
if `img` is a `FancyPlot`, `caption = caption if caption else img.caption`;
then `self.img = str(img)` and
`self.caption = caption if caption else os.path.basename(self.img)`. -/
def FancyPlot.init (img : FancyPlotArg) (caption : Option String) : FancyPlot :=
  let caption1 : Option String :=
    match img with
    | .plot p => if optTruthy caption then caption else some p.caption
    | .path _ => caption
  let imgS := pyStr img
  let captionS := if optTruthy caption1 then caption1.getD "" else basename imgS
  ⟨imgS, captionS⟩

/-! ### Static asset registry and `write_static_files` -/

/-- Fancybox stylesheet URL (module constant `FANCYBOX_CSS`). -/
def FANCYBOX_CSS : String :=
  "//cdnjs.cloudflare.com/ajax/libs/fancybox/2.1.5/jquery.fancybox.min.css"

/-- Fancybox script URL (module constant `FANCYBOX_JS`). -/
def FANCYBOX_JS : String :=
  "//cdnjs.cloudflare.com/ajax/libs/fancybox/2.1.5/jquery.fancybox.min.js"

/-- Lato web-font stylesheet URL (module constant `FONT_LATO_CSS`). -/
def FONT_LATO_CSS : String :=
  "//fonts.googleapis.com/css?family=Lato:300,700"

/-- Modelled from the spec: `BOOTSTRAP_CSS` is imported from
`gwdetchar.io.html`, which is not part of the sources; the spec describes it
as the baseline Bootstrap stylesheet CDN URL. -/
def BOOTSTRAP_CSS : String :=
  "//netdna.bootstrapcdn.com/bootstrap/3.3.4/css/bootstrap.min.css"

/-- Modelled from the spec: `JQUERY_JS` is imported from
`gwdetchar.io.html`, which is not part of the sources; the spec describes it
as the baseline jQuery script CDN URL. -/
def JQUERY_JS : String :=
  "//code.jquery.com/jquery-1.11.2.min.js"

/-- Modelled from the spec: `BOOTSTRAP_JS` is imported from
`gwdetchar.io.html`, which is not part of the sources; the spec describes it
as the baseline Bootstrap script CDN URL. -/
def BOOTSTRAP_JS : String :=
  "//netdna.bootstrapcdn.com/bootstrap/3.3.4/js/bootstrap.min.js"

/-- The process-wide registries `CSS_FILES` and `JS_FILES`, passed
explicitly as state. -/
structure AssetState where
  cssFiles : List String
  jsFiles : List String
deriving DecidableEq

/-- The registries' initial values (module constants `CSS_FILES` and
`JS_FILES`). -/
def assetState0 : AssetState :=
  { cssFiles := [BOOTSTRAP_CSS, FANCYBOX_CSS, FONT_LATO_CSS],
    jsFiles := [JQUERY_JS, BOOTSTRAP_JS, FANCYBOX_JS] }

/-- Result of `write_static_files`: the returned path pair, the updated
registries, and the list of files actually written by this call. -/
structure WSFResult where
  paths : String × String
  state : AssetState
  written : List String
deriving DecidableEq

/-- `write_static_files(static)`: compute `static/omega.css` and
`static/omega.js`; write and register each only if its path is not already
in the corresponding registry; return both paths. -/
def write_static_files (static : String) (st : AssetState) : WSFResult :=
  let omegacss := pathJoin static "omega.css"
  let cssRes :=
    if omegacss ∈ st.cssFiles then (st.cssFiles, ([] : List String))
    else (st.cssFiles ++ [omegacss], [omegacss])
  let omegajs := pathJoin static "omega.js"
  let jsRes :=
    if omegajs ∈ st.jsFiles then (st.jsFiles, ([] : List String))
    else (st.jsFiles ++ [omegajs], [omegajs])
  { paths := (omegacss, omegajs),
    state := { cssFiles := cssRes.1, jsFiles := jsRes.1 },
    written := cssRes.2 ++ jsRes.2 }

/-! ### Stylesheet/script de-duplication (the loops in `init_page`) -/

/-- The link-list resolution loop of `init_page` (lines 211-226): starting
from a copy of the caller list, iterate over the baseline registry in
reverse and insert each entry at the front unless some list element already
ends with its basename. -/
def dedupPrepend (baseline caller : List String) : List String :=
  baseline.reverse.foldl
    (fun css f =>
      let b := basename f
      if css.any (fun g => endswith g b) then css else f :: css)
    caller

/-! ### Plot embedding -/

/-- `fancybox_img(img)` with default `linkparams`: an anchor with fancybox
attributes wrapping a responsive `<img>`. -/
def fancybox_img (img : FancyPlot) : List Node :=
  [Node.el "a" [("href", img.img), ("title", img.caption), ("class", "fancybox"),
                ("target", "_blank"), ("data-fancybox-group", "qscan-image")],
   Node.elc "img" [("alt", basename img.img), ("class", "img-responsive"),
                   ("src", img.img)] "",
   Node.close "a"]

/-- The markup emitted by the `for i, p in enumerate(plots)` loop of
`scaffold_plots`: a row div is opened whenever `i % nperrow == 0`, each
image sits in its own column div, and a row div is closed whenever
`i % nperrow == nperrow - 1`. -/
def scaffold_body (plots : List FancyPlot) (nperrow x : Nat) : List Node :=
  (plots.enum.map (fun ip =>
    (if ip.1 % nperrow = 0
     then [Node.el "div" [("class", "row"), ("style", "width:96%;")]]
     else [])
    ++ [Node.el "div" [("class", "col-sm-" ++ toString x)]]
    ++ fancybox_img ip.2
    ++ [Node.close "div"]
    ++ (if ip.1 % nperrow = nperrow - 1 then [Node.close "div"] else []))).flatten

/-- `scaffold_plots(plots, nperrow=3)`.  After the loop the code evaluates
`if i % nperrow < nperrow-1` with `i` being the loop variable: when `plots`
is empty the loop never ran, `i` is unbound, and the call raises
`NameError` — modelled as `none`.  Otherwise `i = len(plots) - 1` and a
trailing partial row is closed. -/
def scaffold_plots (plots : List FancyPlot) (nperrow : Nat) : Option (List Node) :=
  match plots with
  | [] => none
  | _ :: _ =>
    let x := 12 / nperrow
    let body := scaffold_body plots nperrow x
    some (body ++
      (if (plots.length - 1) % nperrow < nperrow - 1 then [Node.close "div"] else []))

/-! ### Footer, `init_page`, `close_page` -/

/-- The project URL linked in the footer. -/
def GWDETCHAR_URL : String := "https://github.com/ligovirgo/gwdetchar"

/-- The rendered one-liner anchor `hlink` in `write_footer` (the
`markup.oneliner.a` call). -/
def version_link (version : String) : String :=
  "<a href=\"" ++ GWDETCHAR_URL ++ "\" target=\"_blank\">GW-DetChar version "
    ++ version ++ "</a>"

/-- `write_footer(about, date)`: a `<footer class="footer">` holding a
container div with the attribution sentence and, when an about path is
given, the "How was this page generated?" link.  The current user, the
timestamp and the package version are environment inputs and appear as
parameters. -/
def write_footer (about : Option String) (user date version : String) : List Node :=
  [Node.el "footer" [("class", "footer")],
   Node.el "div" [("class", "container")],
   Node.elc "p" []
     ("Page generated using " ++ version_link version ++ " by " ++ user
       ++ " at " ++ date)]
  ++ (match about with
      | some a => [Node.elc "a" [("href", a)] "How was this page generated?"]
      | none => [])
  ++ [Node.close "div", Node.close "footer"]

/-- Result of `init_page`: the constructed page, the updated asset
registries, the static paths computed by the inner `write_static_files`
call, and the static files actually written. -/
structure InitResult where
  page : Page
  state : AssetState
  staticPaths : String × String
  writes : List String
deriving DecidableEq

/-- `init_page(ifo, gpstime, css=[], script=[], base=os.path.curdir, **kwargs)`.
It first writes the static files into `os.path.join(os.path.curdir, 'static')`
(note: relative to the current working directory), then opens the document,
links stylesheets and scripts resolved by the de-duplication loops against
the updated registries, applies the extra head attributes (here: the
optional `title`), writes the banner and opens the content container.
The page's `_full` flag is set to `True`. -/
def init_page (st : AssetState) (ifo gpstime : String) (css script_ : List String)
    (base : String) (title : Option String) : InitResult :=
  let staticdir := pathJoin osCurdir "static"
  let w := write_static_files staticdir st
  let cssList := dedupPrepend w.state.cssFiles css
  let jsList := dedupPrepend w.state.jsFiles script_
  let headNodes :=
    [Node.el "html" [("lang", "en")],
     Node.el "head" [],
     Node.elc "base" [("href", base)] ""]
    ++ cssList.map (fun f =>
         Node.elc "link" [("href", f), ("rel", "stylesheet"),
                          ("type", "text/css"), ("media", "all")] "")
    ++ jsList.map (fun f =>
         Node.elc "script" [("src", f), ("type", "text/javascript")] "")
    ++ (match title with
        | some t => [Node.elc "title" [] t]
        | none => [])
    ++ [Node.close "head"]
  let bodyNodes :=
    [Node.el "body" [],
     Node.el "div" [("class", "container")],
     Node.el "div" [("class", "page-header"), ("role", "banner")],
     Node.elc "h1" [] (ifo ++ " Omega Scan"),
     Node.elc "h2" [] gpstime,
     Node.close "div",
     Node.close "div",
     Node.el "div" [("class", "container")]]
  { page := { headerItems := [Node.raw "<!DOCTYPE HTML>"],
              content := headNodes ++ bodyNodes,
              full := true },
    state := w.state,
    staticPaths := w.paths,
    writes := w.written }

/-- `close_page(page, target, about=None, date=None)` minus the file write
(the caller records `page.render` as the content written to `target`):
close the container, append the footer, and close `<body>`/`<html>` only if
the page was not marked `_full`. -/
def close_page (page : Page) (about : Option String) (user date version : String) :
    Page :=
  let p1 : Page :=
    { page with content := page.content ++ [Node.close "div"]
                            ++ write_footer about user date version }
  if p1.full then p1
  else { p1 with content := p1.content ++ [Node.close "body", Node.close "html"] }

/-! ### Summary table, config-file highlighting, null page -/

/-- `OBSERVATORY_MAP`: the closed mapping from interferometer prefixes to
observatory names. -/
def OBSERVATORY_MAP : List (String × String) :=
  [("G1", "GEO"), ("H1", "LIGO Hanford"), ("K1", "KAGRA"),
   ("L1", "LIGO Livingston"), ("V1", "Virgo")]

/-- The explanatory paragraph of `write_summary`. -/
def summaryParagraph : String :=
  "This page shows time-frequency maps of a user-configured list of "
  ++ "channels for a given interferometer and GPS time. Time-frequency "
  ++ "maps are computed using the <a "
  ++ "href=\"https://gwpy.github.io/docs/stable/examples/timeseries/"
  ++ "qscan.html\" target=\"_blank\">Q-transform</a>."

/-- `write_summary(ifo, gpstime, header, tableclass)`.  The numeric-time to
calendar conversion `tconvert(gpstime)` is an external collaborator and
appears as the parameter `utc`.  `OBSERVATORY_MAP[ifo]` raises `KeyError`
for an unknown prefix — modelled as `Except.error ifo`. -/
def write_summary (ifo utc header tableclass : String) :
    Except String (List Node) :=
  match OBSERVATORY_MAP.lookup ifo with
  | none => .error ifo
  | some name =>
    .ok [Node.elc "h2" [] header,
         Node.elc "p" [("style", "font-size:18px;")] summaryParagraph,
         Node.el "table" [("class", tableclass), ("style", "font-size:18px;")],
         Node.elc "caption" [] "This analysis is based on the following run arguments.",
         Node.el "tbody" [],
         Node.el "tr" [],
         Node.elc "td" [] "<b>Interferometer</b>",
         Node.elc "td" [] (name ++ " (" ++ ifo ++ ")"),
         Node.close "tr",
         Node.el "tr" [],
         Node.elc "td" [] "<b>UTC Time</b>",
         Node.elc "td" [] utc,
         Node.close "tr",
         Node.close "tbody",
         Node.close "table"]

/-- The default `header` argument of `write_summary`. -/
def summaryHeaderDefault : String := "Analysis Summary"

/-- The default `tableclass` argument of `write_summary`. -/
def summaryTableclassDefault : String :=
  "table table-condensed table-hover table-responsive"

/-- The possible outcomes of launching and running the external `highlight`
subprocess in `write_config_html`: the launch raises `OSError` (tool
missing), the launch raises some other exception, or the process runs and
exits with a return code and standard output. -/
inductive HighlightOutcome where
  | launchOSError : HighlightOutcome
  | launchOtherError (e : String) : HighlightOutcome
  | ran (returncode : Int) (stdout : String) : HighlightOutcome
deriving DecidableEq

/-- `write_config_html(filepath, format='ini')`: reading the file yields
`fileText` (an external input); the subprocess outcome is `h`.  Only
`OSError` on launch is caught; a non-zero exit also falls back to the
verbatim file text; any other launch exception propagates. -/
def write_config_html (fileText : String) (h : HighlightOutcome) :
    Except String String :=
  match h with
  | .launchOSError => .ok fileText
  | .launchOtherError e => .error e
  | .ran returncode stdout =>
    if returncode ≠ 0 then .ok fileText else .ok stdout

/-- The inner content built by `write_null_page(reason, context='info')`:
a single alert div holding the reason paragraph. -/
def write_null_page_inner (reason context : String) : List Node :=
  [Node.el "div" [("class", "alert alert-" ++ context)],
   Node.elc "p" [] reason,
   Node.close "div"]

/-! ### The `wrap_html` decorator -/

/-- A single-quote character as a string (for the client-side loader
script text). -/
def sq : String := String.singleton (Char.ofNat 39)

/-- The loader script `"$('#content').load('%s');" % contentf`. -/
def loadScript (contentf : String) : String :=
  "$(" ++ sq ++ "#content" ++ sq ++ ").load(" ++ sq ++ contentf ++ sq ++ ");"

/-- The observable result of one wrapped page-writer invocation: the HTML
files written (path and content, in write order), the static paths computed
by `init_page`, the static files actually written, the final registries and
the returned index path. -/
structure RunResult where
  htmlFiles : List (String × List Node)
  staticTargets : List String
  staticWrites : List String
  state : AssetState
  index : String
deriving DecidableEq

/-- The body of `wrap_html.decorated_func` shared by every invocation once
the about-page branch has been resolved: build the page via `init_page`,
add the summary when an about link exists, write the inner content to
`outdir/_inner.html`, embed the content placeholder and loader script, and
close the page into `outdir/index.html`. -/
def decorated_base (st : AssetState) (ifo gpstime : String) (outdir base title : String)
    (about : Option String) (summary : List Node) (inner : List Node)
    (user date version : String) : RunResult :=
  let ir := init_page st ifo gpstime [] [] base (some title)
  let page0 := ir.page
  let page1 :=
    match about with
    | some _ => { page0 with content := page0.content ++ summary }
    | none => page0
  let contentf := pathJoin outdir "_inner.html"
  let page2 :=
    { page1 with content := page1.content
        ++ [Node.elc "div" [("id", "content")] "",
            Node.elc "script" [] (loadScript contentf)] }
  let closed := close_page page2 about user date version
  let indexf := pathJoin outdir "index.html"
  { htmlFiles := [(contentf, inner), (indexf, closed.render)],
    staticTargets := [ir.staticPaths.1, ir.staticPaths.2],
    staticWrites := ir.writes,
    state := ir.state,
    index := indexf }

/-- A full `wrap_html.decorated_func` invocation.  `inner` is the wrapped
function's output (already a node list); `aboutInner` is the about-page
renderer's output as a function of the configuration files; `utc` is the
external `tconvert(gpstime)` result used by `write_summary`.  When `config`
is supplied, the about page is written first (into `outdir/about`, with the
base bumped one level up if it was the default) by a nested wrapped
invocation that receives no `config` option; then the main page is built,
with the analysis summary injected.  An unknown observatory prefix makes
`write_summary` raise after the about files are written: the error carries
the files written so far. -/
def decorated_run (st : AssetState) (ifo gpstime utc : String)
    (outdir base title : String) (config : Option (List String))
    (aboutInner : List String → List Node) (inner : List Node)
    (user date version : String) :
    Except (String × List (String × List Node)) RunResult :=
  match config with
  | none =>
    .ok (decorated_base st ifo gpstime outdir base title none [] inner user date version)
  | some configfiles =>
    let aboutdir := pathJoin outdir "about"
    let base' := if base = osCurdir then osPardir else base
    let aboutR := decorated_base st ifo gpstime aboutdir base' title none []
      (aboutInner configfiles) user date version
    let aboutPath := aboutR.index
    let about :=
      if basename aboutPath = "index.html" then aboutPath.dropRight 10 else aboutPath
    match write_summary ifo utc summaryHeaderDefault summaryTableclassDefault with
    | .error e => .error (e, aboutR.htmlFiles)
    | .ok summary =>
      let mainR := decorated_base aboutR.state ifo gpstime outdir base title
        (some about) summary inner user date version
      .ok { htmlFiles := aboutR.htmlFiles ++ mainR.htmlFiles,
            staticTargets := aboutR.staticTargets ++ mainR.staticTargets,
            staticWrites := aboutR.staticWrites ++ mainR.staticWrites,
            state := mainR.state,
            index := mainR.index }

/-- Whether a wrapped invocation raised. -/
def runFailed : Except (String × List (String × List Node)) RunResult → Bool
  | .error _ => true
  | .ok _ => false

/-- The paths of the HTML files written by a wrapped invocation, including
the files already on disk when an exception propagated. -/
def runWrittenPaths : Except (String × List (String × List Node)) RunResult → List String
  | .error ep => ep.2.map Prod.fst
  | .ok r => r.htmlFiles.map Prod.fst

/-- The content written to path `p` by a run (empty if `p` was not written). -/
def fileContent (r : RunResult) (p : String) : List Node :=
  (r.htmlFiles.lookup p).getD []

/-- Whether a node is a `div` whose `class` attribute contains `cls`. -/
def nodeIsAlertDiv (cls : String) : Node → Bool
  | .el "div" attrs => attrs.any (fun kv => kv.1 == "class" && strContains kv.2 cls)
  | _ => false

/-- Whether a node is a complete text element whose content contains `txt`. -/
def nodeTextHas (txt : String) : Node → Bool
  | .elc _ _ c => strContains c txt
  | _ => false

/-- Whether a node is a script element whose text mentions path `p`. -/
def nodeScriptLoads (p : String) : Node → Bool
  | .elc "script" _ s => strContains s p
  | _ => false

/-! ### Helper lemmas -/

theorem ne_of_strLen_ne {a b : String} (h : strLen a ≠ strLen b) : a ≠ b :=
  fun he => h (congrArg strLen he)

/-- A concrete list of seven plots, exercising the `N = 7` grid case. -/
def sevenPlots : List FancyPlot :=
  (List.range 7).map (fun i => ⟨"plot" ++ toString i ++ ".png", "a caption"⟩)

/-! ### Claim theorems -/

/-- Claim C1 (code bug): the claim states that for `N = 0` zero rows are
produced, but `scaffold_plots([])` raises `NameError`: the trailing
`if i % nperrow < nperrow-1` check references the loop variable `i`, which
is never bound when the loop body runs zero times.  The model returns
`none` there.  For `N = 7` the rest of the claim behaves as stated: 3 row
divs (`ceil(7/3)`), 7 column divs (one per image), and 10 div closes
(7 columns + 3 rows, so the trailing partial row is explicitly closed). -/
theorem scaffold_plots_empty_raises :
    scaffold_plots [] 3 = none
    ∧ (scaffold_plots sevenPlots 3).map
        (fun ns => ns.count (Node.el "div" [("class", "row"), ("style", "width:96%;")]))
        = some 3
    ∧ (scaffold_plots sevenPlots 3).map
        (fun ns => ns.count (Node.el "div" [("class", "col-sm-4")])) = some 7
    ∧ (scaffold_plots sevenPlots 3).map
        (fun ns => ns.count (Node.close "div")) = some 10 := by
  refine ⟨rfl, ?_, ?_, ?_⟩ <;> decide

/-- Claim C2 (amended): the static asset files are always written into the
`static` subdirectory of the process's current working directory
(`./static/omega.css` and `./static/omega.js`), for every caller-chosen
output directory — `init_page` computes the static directory from
`os.path.curdir`, not from `outdir`. -/
theorem static_files_written_to_cwd (st : AssetState) (ifo gpstime : String)
    (outdir base title : String) (about : Option String)
    (summary inner : List Node) (user date version : String) :
    (decorated_base st ifo gpstime outdir base title about summary inner
        user date version).staticTargets
      = ["./static/omega.css", "./static/omega.js"]
    ∧ (init_page st ifo gpstime [] [] base (some title)).staticPaths
      = ("./static/omega.css", "./static/omega.js") :=
  ⟨rfl, rfl⟩

/-- Claim C2 counterexample: invoking a wrapped page writer with output
directory `public_html` still writes the static assets to
`./static/omega.css` and `./static/omega.js`; those paths are not the
`static` subdirectory of `public_html`, so the claim that the static files
land under the caller's output directory is false. -/
theorem static_files_not_under_outdir :
    (decorated_base assetState0 "H1" "1126259462" "public_html" "." "t" none
        [] [] "user" "date" "0.1.0").staticWrites
      = ["./static/omega.css", "./static/omega.js"]
    ∧ "./static/omega.css" ≠ pathJoin (pathJoin "public_html" "static") "omega.css"
    ∧ startswith "./static/omega.css" "public_html" = false := by
  refine ⟨by decide, by decide, by decide⟩

/-- Claim C7: `write_config_html` returns the highlighter's standard output
when the subprocess exits 0, falls back to the verbatim file text when the
executable is unavailable (`OSError` on launch) or when the exit code is
non-zero, and performs no other recovery: any other launch exception
propagates. -/
theorem write_config_html_cases :
    (∀ fileText out, write_config_html fileText (.ran 0 out) = .ok out)
    ∧ (∀ fileText, write_config_html fileText .launchOSError = .ok fileText)
    ∧ (∀ fileText rc out, rc ≠ 0 →
        write_config_html fileText (.ran rc out) = .ok fileText)
    ∧ (∀ fileText e, write_config_html fileText (.launchOtherError e) = .error e) := by
  refine ⟨fun t o => rfl, fun t => rfl, ?_, fun t e => rfl⟩
  intro t rc o h
  simp [write_config_html, h]

/-- Claim C7 witness: concrete non-zero exit code 1 falls back to the
verbatim file text. -/
theorem write_config_html_cases_witness :
    write_config_html "[section]" (.ran 1 "highlighted") = .ok "[section]" :=
  write_config_html_cases.2.2.1 "[section]" 1 "highlighted" (by decide)

/-- The wrapped `write_null_page` invocation of claim C8: reason
"No significant channels", context "warning", output directory `out`
(no `config`, so no about page). -/
def write_null_page_run : RunResult :=
  decorated_base assetState0 "H1" "1126259462" "out" "." "H1 Qscan | 1126259462"
    none [] (write_null_page_inner "No significant channels" "warning")
    "user" "date" "0.1.0"

/-- Claim C8: writing a null-result page with reason "No significant
channels" and context "warning" writes `out/_inner.html` whose content is
the alert fragment — a div whose `class` contains `alert-warning` and whose
text contains "No significant channels" — and `out/index.html`, whose
loader script references `out/_inner.html` (the embedding). -/
theorem write_null_page_alert_warning :
    write_null_page_run.htmlFiles.map Prod.fst
      = [pathJoin "out" "_inner.html", pathJoin "out" "index.html"]
    ∧ fileContent write_null_page_run (pathJoin "out" "_inner.html")
      = write_null_page_inner "No significant channels" "warning"
    ∧ (fileContent write_null_page_run (pathJoin "out" "_inner.html")).any
        (nodeIsAlertDiv "alert-warning") = true
    ∧ (fileContent write_null_page_run (pathJoin "out" "_inner.html")).any
        (nodeTextHas "No significant channels") = true
    ∧ (fileContent write_null_page_run (pathJoin "out" "index.html")).any
        (nodeScriptLoads (pathJoin "out" "_inner.html")) = true := by
  refine ⟨by decide, by decide, by decide, by decide, by decide⟩

/-- Claim C9: every page constructed by `init_page` carries `_full = True`,
so the `close_page` branch that appends closing `</body>`/`</html>` tags is
unreachable for pages produced through the standard pipeline: for any
content later appended to such a page, `close_page` only closes the
container and appends the footer. -/
theorem init_page_full_no_closing_tags (st : AssetState) (ifo gpstime : String)
    (css script_ : List String) (base : String) (title : Option String)
    (extra : List Node) (about : Option String) (user date version : String) :
    (init_page st ifo gpstime css script_ base title).page.full = true
    ∧ close_page
        { (init_page st ifo gpstime css script_ base title).page with
          content :=
            (init_page st ifo gpstime css script_ base title).page.content ++ extra }
        about user date version
      = { (init_page st ifo gpstime css script_ base title).page with
          content :=
            (init_page st ifo gpstime css script_ base title).page.content ++ extra
              ++ [Node.close "div"] ++ write_footer about user date version } :=
  ⟨rfl, rfl⟩

/-- Claim C10: a `FancyPlot` built with an empty-string caption equals one
built with no caption; with no caption the caption falls back to the image
path's base filename, or — when constructed from another `FancyPlot` with a
non-empty caption — to that source plot's caption; and the `img` field is
always the string form of the given image. -/
theorem fancyplot_caption_fallback :
    (∀ img, FancyPlot.init img (some "") = FancyPlot.init img none)
    ∧ (∀ s, (FancyPlot.init (.path s) none).caption = basename s)
    ∧ (∀ p : FancyPlot, p.caption ≠ "" →
        (FancyPlot.init (.plot p) none).caption = p.caption)
    ∧ (∀ img c, (FancyPlot.init img c).img = pyStr img) := by
  refine ⟨?_, fun s => rfl, ?_, ?_⟩
  · intro img
    cases img <;> rfl
  · intro p hp
    simp [FancyPlot.init, optTruthy, hp]
  · intro img c
    cases img <;> rfl

/-- Claim C10 witness: a concrete `FancyPlot` with caption "cap" keeps its
caption when wrapped without one. -/
theorem fancyplot_caption_fallback_witness :
    (FancyPlot.init (.plot ⟨"a/b.png", "cap"⟩) none).caption = "cap" :=
  fancyplot_caption_fallback.2.2.1 ⟨"a/b.png", "cap"⟩ (by decide)

/-- Claim C3: calling `write_static_files` twice with the same directory
(whose asset paths are not yet registered) writes each of the two asset
files exactly once — all on the first call, none on the second — returns
identical path pairs on both calls, and each registry grows by exactly one
entry, appended on the first call only. -/
theorem write_static_files_twice (static : String) (st : AssetState)
    (hc : pathJoin static "omega.css" ∉ st.cssFiles)
    (hj : pathJoin static "omega.js" ∉ st.jsFiles) :
    (write_static_files static st).paths
      = (write_static_files static (write_static_files static st).state).paths
    ∧ (write_static_files static st).written
      = [pathJoin static "omega.css", pathJoin static "omega.js"]
    ∧ (write_static_files static (write_static_files static st).state).written = []
    ∧ (write_static_files static st).state.cssFiles
      = st.cssFiles ++ [pathJoin static "omega.css"]
    ∧ (write_static_files static st).state.jsFiles
      = st.jsFiles ++ [pathJoin static "omega.js"]
    ∧ (write_static_files static (write_static_files static st).state).state
      = (write_static_files static st).state := by
  simp [write_static_files, hc, hj]

/-- Claim C3 witness: the fresh `./static` directory against the initial
registries. -/
theorem write_static_files_twice_witness :
    (write_static_files "./static" assetState0).paths
      = (write_static_files "./static" (write_static_files "./static" assetState0).state).paths
    ∧ (write_static_files "./static" assetState0).written
      = [pathJoin "./static" "omega.css", pathJoin "./static" "omega.js"]
    ∧ (write_static_files "./static" (write_static_files "./static" assetState0).state).written = []
    ∧ (write_static_files "./static" assetState0).state.cssFiles
      = assetState0.cssFiles ++ [pathJoin "./static" "omega.css"]
    ∧ (write_static_files "./static" assetState0).state.jsFiles
      = assetState0.jsFiles ++ [pathJoin "./static" "omega.js"]
    ∧ (write_static_files "./static" (write_static_files "./static" assetState0).state).state
      = (write_static_files "./static" assetState0).state :=
  write_static_files_twice "./static" assetState0 (by decide) (by decide)

/-- Claim C5: for every observatory code in the mapping, `write_summary`
produces a table cell holding the mapped full name followed by the code in
parentheses; for every code outside the supported set
`{G1, H1, K1, L1, V1}`, it fails with the lookup error instead of
producing a page. -/
theorem write_summary_observatory (ifo utc header tableclass : String) :
    (∀ name, OBSERVATORY_MAP.lookup ifo = some name →
      ∃ ns, write_summary ifo utc header tableclass = .ok ns
        ∧ Node.elc "td" [] (name ++ " (" ++ ifo ++ ")") ∈ ns)
    ∧ (ifo ∉ ["G1", "H1", "K1", "L1", "V1"] →
      write_summary ifo utc header tableclass = .error ifo) := by
  constructor
  · intro name hname
    unfold write_summary
    rw [hname]
    exact ⟨_, rfl, by simp⟩
  · intro hmem
    simp only [List.mem_cons, List.not_mem_nil, or_false, not_or] at hmem
    obtain ⟨h1, h2, h3, h4, h5⟩ := hmem
    have e1 : (ifo == "G1") = false := by simp [h1]
    have e2 : (ifo == "H1") = false := by simp [h2]
    have e3 : (ifo == "K1") = false := by simp [h3]
    have e4 : (ifo == "L1") = false := by simp [h4]
    have e5 : (ifo == "V1") = false := by simp [h5]
    unfold write_summary
    have : OBSERVATORY_MAP.lookup ifo = none := by
      simp [OBSERVATORY_MAP, List.lookup, e1, e2, e3, e4, e5]
    rw [this]

/-- Claim C5 witness: the supported code `H1` yields the cell
"LIGO Hanford (H1)", and the unsupported code `Z9` fails with the lookup
error. -/
theorem write_summary_observatory_witness :
    (∃ ns, write_summary "H1" "2015-09-14 09:50:45" "Analysis Summary"
        "table table-condensed table-hover table-responsive" = .ok ns
      ∧ Node.elc "td" [] ("LIGO Hanford" ++ " (" ++ "H1" ++ ")") ∈ ns)
    ∧ write_summary "Z9" "2015-09-14 09:50:45" "Analysis Summary"
        "table table-condensed table-hover table-responsive" = .error "Z9" :=
  ⟨(write_summary_observatory "H1" "2015-09-14 09:50:45" "Analysis Summary"
      "table table-condensed table-hover table-responsive").1 "LIGO Hanford" rfl,
   (write_summary_observatory "Z9" "2015-09-14 09:50:45" "Analysis Summary"
      "table table-condensed table-hover table-responsive").2 (by decide)⟩

/-- Claim C4 counterexample: with baseline `[css/a.css, css/b.css,
css/c.css]` and a caller list `[mine/a.css, mine/b.css]` — which does
contain a file with the same basename as `B = css/b.css` under a different
path — the final list produced by the `init_page` de-duplication loop
(`dedupPrepend`) does not contain `A = css/a.css` (the caller's `a.css`
shadows it too), so the claim as stated, which requires `A` to be present
for every such caller list, is false. -/
theorem dedup_missing_baseline_entry :
    (basename "mine/b.css" = basename "css/b.css" ∧ "mine/b.css" ≠ "css/b.css")
    ∧ dedupPrepend ["css/a.css", "css/b.css", "css/c.css"]
        ["mine/a.css", "mine/b.css"]
      = ["css/c.css", "mine/a.css", "mine/b.css"]
    ∧ "css/a.css" ∉ dedupPrepend ["css/a.css", "css/b.css", "css/c.css"]
        ["mine/a.css", "mine/b.css"] := by
  refine ⟨by decide, by decide, by decide⟩

/-- Claim C4 (amended): for a baseline `[A, B, C]` and a caller list `cs`
containing an entry that suffix-matches `B`'s basename, *provided no entry
of the final list suffix-matches `A`'s basename and no caller entry
suffix-matches `C`'s basename*, the final list is exactly `A :: C :: cs`:
the caller's version of `B` appears exactly once (if it appeared once in
`cs` and differs from `A` and `C`), `A` and `C` are present, and the
baseline-only entries precede, in baseline order, all caller entries. -/
theorem dedup_baseline_caller (A B C : String) (cs : List String)
    (hB : cs.any (fun f => endswith f (basename B)) = true)
    (hA : (C :: cs).any (fun f => endswith f (basename A)) = false)
    (hC : cs.any (fun f => endswith f (basename C)) = false) :
    dedupPrepend [A, B, C] cs = A :: C :: cs
    ∧ A ∈ dedupPrepend [A, B, C] cs
    ∧ C ∈ dedupPrepend [A, B, C] cs
    ∧ (∀ f ∈ cs, f ∈ dedupPrepend [A, B, C] cs)
    ∧ (∀ B', List.count B' cs = 1 → B' ≠ A → B' ≠ C →
        List.count B' (dedupPrepend [A, B, C] cs) = 1) := by
  have hmain : dedupPrepend [A, B, C] cs = A :: C :: cs := by
    unfold dedupPrepend
    simp only [List.reverse_cons, List.reverse_nil, List.nil_append,
      List.cons_append, List.foldl_cons, List.foldl_nil]
    rw [hC]
    simp only [Bool.false_eq_true, if_false]
    rw [List.any_cons, hB]
    simp only [Bool.or_true, if_true]
    rw [hA]
    simp only [Bool.false_eq_true, if_false]
  refine ⟨hmain, ?_, ?_, ?_, ?_⟩
  · rw [hmain]; exact List.mem_cons_self _ _
  · rw [hmain]; exact List.mem_cons_of_mem _ (List.mem_cons_self _ _)
  · intro f hf
    rw [hmain]
    exact List.mem_cons_of_mem _ (List.mem_cons_of_mem _ hf)
  · intro B' hcount hne1 hne2
    rw [hmain]
    rw [List.count_cons, List.count_cons]
    have e1 : (C == B') = false := by simp [Ne.symm hne2]
    have e2 : (A == B') = false := by simp [Ne.symm hne1]
    simp [e1, e2, hcount]

/-- Claim C4 witness: baseline `[css/a.css, css/b.css, css/c.css]`, caller
list `[mine/b.css]`; the final list is `[css/a.css, css/c.css,
mine/b.css]`, with the caller's `b.css` appearing exactly once. -/
theorem dedup_baseline_caller_witness :
    dedupPrepend ["css/a.css", "css/b.css", "css/c.css"] ["mine/b.css"]
      = ["css/a.css", "css/c.css", "mine/b.css"]
    ∧ List.count "mine/b.css"
        (dedupPrepend ["css/a.css", "css/b.css", "css/c.css"] ["mine/b.css"]) = 1 :=
  ⟨(dedup_baseline_caller "css/a.css" "css/b.css" "css/c.css" ["mine/b.css"]
      (by decide) (by decide) (by decide)).1,
   (dedup_baseline_caller "css/a.css" "css/b.css" "css/c.css" ["mine/b.css"]
      (by decide) (by decide) (by decide)).2.2.2.2 "mine/b.css"
      (by decide) (by decide) (by decide)⟩

/-- Claim C6 (amended): every wrapped invocation that completes without a
propagated error writes exactly one `index.html` into the resolved output
directory and at most one nested `about/index.html`; without `config` the
invocation writes exactly its own two files, and with `config` the nested
about-page writer — which is invoked without a `config` option, so the
recursion stops after one level — contributes exactly
`about/_inner.html` and `about/index.html`. -/
theorem wrap_html_index_counts (st : AssetState) (ifo gpstime utc : String)
    (outdir base title : String) (config : Option (List String))
    (aboutInner : List String → List Node) (inner : List Node)
    (user date version : String) (r : RunResult)
    (h : decorated_run st ifo gpstime utc outdir base title config aboutInner inner
        user date version = .ok r) :
    (r.htmlFiles.map Prod.fst).count (pathJoin outdir "index.html") = 1
    ∧ (r.htmlFiles.map Prod.fst).count
        (pathJoin (pathJoin outdir "about") "index.html") ≤ 1
    ∧ (config = none →
        r.htmlFiles.map Prod.fst
          = [pathJoin outdir "_inner.html", pathJoin outdir "index.html"])
    ∧ (∀ cfgs, config = some cfgs →
        r.htmlFiles.map Prod.fst
          = [pathJoin (pathJoin outdir "about") "_inner.html",
             pathJoin (pathJoin outdir "about") "index.html",
             pathJoin outdir "_inner.html", pathJoin outdir "index.html"]) := by
  have e10 : strLen "index.html" = 10 := rfl
  have e11 : strLen "_inner.html" = 11 := rfl
  have hiM := pathJoin_strLen outdir "index.html" rfl
  have hjM := pathJoin_strLen outdir "_inner.html" rfl
  have hAd : strLen (pathJoin outdir "about") = strLen outdir + joinSep outdir + 5 :=
    strLen_pathJoin_about outdir
  have hAs : joinSep (pathJoin outdir "about") = 1 := joinSep_pathJoin_about outdir
  have hiA := pathJoin_strLen (pathJoin outdir "about") "index.html" rfl
  have hjA := pathJoin_strLen (pathJoin outdir "about") "_inner.html" rfl
  have n1 : pathJoin outdir "_inner.html" ≠ pathJoin outdir "index.html" :=
    ne_of_strLen_ne (by rw [hjM, hiM, e10, e11]; omega)
  have n2 : pathJoin (pathJoin outdir "about") "index.html"
      ≠ pathJoin outdir "index.html" :=
    ne_of_strLen_ne (by rw [hiA, hiM, hAd, hAs, e10]; omega)
  have n3 : pathJoin (pathJoin outdir "about") "_inner.html"
      ≠ pathJoin outdir "index.html" :=
    ne_of_strLen_ne (by rw [hjA, hiM, hAd, hAs, e10, e11]; omega)
  have n4 : pathJoin (pathJoin outdir "about") "_inner.html"
      ≠ pathJoin (pathJoin outdir "about") "index.html" :=
    ne_of_strLen_ne (by rw [hjA, hiA, e10, e11]; omega)
  have n5 : pathJoin outdir "_inner.html"
      ≠ pathJoin (pathJoin outdir "about") "index.html" :=
    ne_of_strLen_ne (by rw [hjM, hiA, hAd, hAs, e10, e11]; omega)
  have b1 : (pathJoin outdir "_inner.html" == pathJoin outdir "index.html") = false := by
    simp [n1]
  have b2 : (pathJoin (pathJoin outdir "about") "index.html"
      == pathJoin outdir "index.html") = false := by simp [n2]
  have b3 : (pathJoin (pathJoin outdir "about") "_inner.html"
      == pathJoin outdir "index.html") = false := by simp [n3]
  have b4 : (pathJoin (pathJoin outdir "about") "_inner.html"
      == pathJoin (pathJoin outdir "about") "index.html") = false := by simp [n4]
  have b5 : (pathJoin outdir "_inner.html"
      == pathJoin (pathJoin outdir "about") "index.html") = false := by simp [n5]
  have b6 : (pathJoin outdir "index.html"
      == pathJoin (pathJoin outdir "about") "index.html") = false := by
    simp [Ne.symm n2]
  cases config with
  | none =>
    simp only [decorated_run, Except.ok.injEq] at h
    subst h
    have hfiles : (decorated_base st ifo gpstime outdir base title none [] inner
        user date version).htmlFiles.map Prod.fst
        = [pathJoin outdir "_inner.html", pathJoin outdir "index.html"] := rfl
    refine ⟨?_, ?_, fun _ => hfiles, fun cfgs hcf => by simp at hcf⟩
    · rw [hfiles]
      simp [List.count_cons, List.count_nil, b1]
    · rw [hfiles]
      simp [List.count_cons, List.count_nil, b5, b6]
  | some cfgs =>
    simp only [decorated_run] at h
    cases hw : write_summary ifo utc summaryHeaderDefault summaryTableclassDefault with
    | error e =>
      rw [hw] at h
      simp at h
    | ok summary =>
      rw [hw] at h
      simp only [Except.ok.injEq] at h
      subst h
      have hfiles :
          (((decorated_base st ifo gpstime (pathJoin outdir "about")
              (if base = osCurdir then osPardir else base) title none []
              (aboutInner cfgs) user date version).htmlFiles
            ++ (decorated_base (decorated_base st ifo gpstime (pathJoin outdir "about")
                (if base = osCurdir then osPardir else base) title none []
                (aboutInner cfgs) user date version).state ifo gpstime outdir base title
                (some (if basename (decorated_base st ifo gpstime (pathJoin outdir "about")
                    (if base = osCurdir then osPardir else base) title none []
                    (aboutInner cfgs) user date version).index = "index.html"
                  then (decorated_base st ifo gpstime (pathJoin outdir "about")
                    (if base = osCurdir then osPardir else base) title none []
                    (aboutInner cfgs) user date version).index.dropRight 10
                  else (decorated_base st ifo gpstime (pathJoin outdir "about")
                    (if base = osCurdir then osPardir else base) title none []
                    (aboutInner cfgs) user date version).index))
                summary inner user date version).htmlFiles).map Prod.fst)
          = [pathJoin (pathJoin outdir "about") "_inner.html",
             pathJoin (pathJoin outdir "about") "index.html",
             pathJoin outdir "_inner.html", pathJoin outdir "index.html"] := rfl
      refine ⟨?_, ?_, fun hcf => by simp at hcf, fun cfgs' hcf => ?_⟩
      · rw [hfiles]
        simp [List.count_cons, List.count_nil, b1, b2, b3]
      · rw [hfiles]
        simp [List.count_cons, List.count_nil, b4, b5, b6]
      · exact hfiles

/-- Claim C6 witness: a concrete no-config invocation writing into `out`. -/
theorem wrap_html_index_counts_witness :
    (((decorated_base assetState0 "H1" "1126259462" "out" "." "t" none [] []
        "user" "date" "0.1.0").htmlFiles.map Prod.fst).count
        (pathJoin "out" "index.html") = 1)
    ∧ (((decorated_base assetState0 "H1" "1126259462" "out" "." "t" none [] []
        "user" "date" "0.1.0").htmlFiles.map Prod.fst).count
        (pathJoin (pathJoin "out" "about") "index.html") ≤ 1) :=
  ⟨(wrap_html_index_counts assetState0 "H1" "1126259462" "utc" "out" "." "t" none
      (fun _ => []) [] "user" "date" "0.1.0" _ rfl).1,
   (wrap_html_index_counts assetState0 "H1" "1126259462" "utc" "out" "." "t" none
      (fun _ => []) [] "user" "date" "0.1.0" _ rfl).2.1⟩

/-- Claim C6 counterexample: with `config` supplied and an observatory code
outside the supported mapping, the wrapped invocation raises (the summary
lookup fails) after writing the about pages but before writing the main
page, so that invocation writes no `index.html` into the resolved output
directory — the claim that every invocation produces exactly one is
false. -/
theorem wrap_html_unknown_ifo_no_index :
    runFailed (decorated_run assetState0 "X1" "1126259462" "utc" "out" "." "t"
        (some ["run.ini"]) (fun _ => []) [] "user" "date" "0.1.0") = true
    ∧ (runWrittenPaths (decorated_run assetState0 "X1" "1126259462" "utc" "out" "." "t"
        (some ["run.ini"]) (fun _ => []) [] "user" "date" "0.1.0")).count
        (pathJoin "out" "index.html") = 0 := by
  refine ⟨by decide, by decide⟩

end GwdetcharOmegaHtml
